import Mathlib

/-!
Verification of the DataTalksClub projects dashboard (src/app.py).

The file shallowly embeds the two data-bearing functions of the app:

* `load_data` (app.py lines 26-36): resolves (course, year) pairs to file
  paths, reads each existing CSV, and concatenates the frames, returning
  `None` when no file was found.  The filesystem and the CSV reader are
  passed in as parameters (`pathExists`, `read_csv`).

* `filter_dataframe` (app.py lines 65-118): for each user-selected column,
  classifies it (skip when its values are unhashable; categorical when the
  dtype is categorical or the number of distinct values is below 10; else
  numeric when the dtype is numeric; else free text) and filters the running
  frame by the widget input for that column.  The classification is computed
  on the partially filtered frame `df_filtered`, while the hashability probe
  on line 78 inspects the original frame `df`.

Frames are lists of rows; a row is an association list from column name to
cell.  A cell is missing (`na`, modelling NaN), a string, an integer
(modelling the numeric dtypes; none of the claims depends on genuinely
non-integral float behaviour), or an unhashable object (`obj`, modelling
e.g. a Python list stored in an object column, which makes the set
comprehension on line 78 raise TypeError).  Widget inputs are bundled in a
per-column `ColumnChoice` record: the multiselect selection, the slider
endpoints, the text box content and the case checkbox.  Pandas dtype facts
that row filtering cannot change are passed as the predicates `isCatD`
(categorical dtype) and `isNumD` (numeric dtype).
-/

namespace DTC

/-- Cell of a dataframe: missing (NaN), string, numeric, or an unhashable
object such as a nested list. -/
inductive Cell where
  | na : Cell
  | str : String → Cell
  | num : Int → Cell
  | obj : Nat → Cell
deriving DecidableEq, Repr

/-- Row of a dataframe: an association list from column name to cell. -/
abbrev Row := List (String × Cell)

/-- Store of allocated dataframes, for the mutation claim: each dataframe
object lives at an index of the store. -/
abbrev Store := List (List Row)

/-- Value of a row at a column.  A column absent from the row reads as
missing, which models the NaN fill of `pd.concat` on a column superset. -/
def getCell (r : Row) (col : String) : Cell :=
  match r.find? (fun p => p.1 == col) with
  | some p => p.2
  | none => Cell.na

/-- Column of a frame, as the list of its cells in row order
(models `df[column]`). -/
def colVals (df : List Row) (col : String) : List Cell :=
  df.map (fun r => getCell r col)

/-- Hashability probe of app.py line 78: `{x for x in df[column]}` raises
TypeError exactly when some value of the column is unhashable.  Note the
probe runs on the original frame `df`, not on `df_filtered`. -/
def hashFails (df : List Row) (col : String) : Bool :=
  (colVals df col).any (fun c => match c with | Cell.obj _ => true | _ => false)

/-- Distinct-value count of a column, excluding missing values: pandas
`Series.nunique` (app.py line 86). -/
def nunique (df : List Row) (col : String) : Nat :=
  (((colVals df col).filter (fun c => c != Cell.na)).dedup).length

/-- Numeric values of a column, with missing cells dropped: the values that
pandas `min`/`max` aggregate over (app.py lines 95-96). -/
def colNums (df : List Row) (col : String) : List Int :=
  df.filterMap (fun r =>
    match getCell r col with
    | Cell.num v => some v
    | _ => none)

/-- Widget inputs for one column: the multiselect selection of the
categorical branch (line 88), the slider endpoints of the numeric branch
(line 98), and the text box and case checkbox of the text branch
(lines 107-110). -/
structure ColumnChoice where
  catSel : List Cell
  numLo : Int
  numHi : Int
  textInput : String
  caseSensitive : Bool

/-- Widget inputs for every column. -/
abbrev Choices := String → ColumnChoice

/-- Helper for literal substring search: does the first character list start
the second. -/
def startsWithSeq : List Char → List Char → Bool
  | [], _ => true
  | _ :: _, [] => false
  | a :: as, b :: bs => a == b && startsWithSeq as bs

/-- Literal substring search: does the pattern occur contiguously in the
text. -/
def containsSeq (pat : List Char) : List Char → Bool
  | [] => pat.isEmpty
  | b :: bs => startsWithSeq pat (b :: bs) || containsSeq pat bs

/-- Model of `Series.str.contains(pattern, case=...)` (app.py line 113) for
literal patterns: substring containment, with both sides lowercased when
the match is case-insensitive. -/
def strContains (pattern : String) (caseSensitive : Bool) (s : String) : Bool :=
  if caseSensitive then containsSeq pattern.toList s.toList
  else containsSeq (pattern.toList.map Char.toLower) (s.toList.map Char.toLower)

/-- Is the cell a number?  Used to state the dtype coherence a pandas
numeric column guarantees. -/
def isNumCell : Cell → Bool
  | Cell.num _ => true
  | _ => false

/-- Model of `Series.between(lo, hi)` (app.py line 105) on one cell:
inclusive range test on numbers; NaN compares false, so missing cells are
dropped. -/
def betweenCell (lo hi : Int) (c : Cell) : Bool :=
  match c with
  | Cell.num v => decide (lo ≤ v) && decide (v ≤ hi)
  | _ => false

/-- Model of the text mask of app.py lines 113-115 on one cell: only string
cells can match, and `na=False` maps missing cells to False. -/
def textMatches (choice : ColumnChoice) (c : Cell) : Bool :=
  match c with
  | Cell.str s => strContains choice.textInput choice.caseSensitive s
  | _ => false

/-- Branch taken by the loop body of `filter_dataframe` for one column. -/
inductive ColClass where
  | skip : ColClass
  | cat : ColClass
  | num : ColClass
  | text : ColClass
deriving DecidableEq, Repr

/-- Branch selection of app.py lines 77-106: skip when the hashability probe
on the original frame fails; categorical when the dtype is categorical or
the filtered column has fewer than 10 distinct values; else numeric when
the dtype is numeric; else free text.  `dff` is the partially filtered
frame `df_filtered` current when the column is reached. -/
def classifyFull (isCatD isNumD : String → Bool) (df0 dff : List Row) (col : String) : ColClass :=
  if hashFails df0 col then ColClass.skip
  else if isCatD col || decide (nunique dff col < 10) then ColClass.cat
  else if isNumD col then ColClass.num
  else ColClass.text

/-- Row predicate applied by each branch, given the widget inputs: skipped
columns and an empty text box keep every row; the categorical branch is
`isin` of the selection; the numeric branch is `between` the slider
endpoints; the text branch is the contains mask. -/
def stepPred (ch : Choices) (cls : ColClass) (col : String) : Row → Bool :=
  match cls with
  | ColClass.skip => fun _ => true
  | ColClass.cat => fun r => decide (getCell r col ∈ (ch col).catSel)
  | ColClass.num => fun r => betweenCell (ch col).numLo (ch col).numHi (getCell r col)
  | ColClass.text =>
      if (ch col).textInput = "" then fun _ => true
      else fun r => textMatches (ch col) (getCell r col)

/-- Loop body of `filter_dataframe` (app.py lines 76-116) for one column:
`df0` is the original frame (used by the hashability probe of line 78),
`dff` the running `df_filtered`. -/
def stepFilter (ch : Choices) (isCatD isNumD : String → Bool)
    (df0 dff : List Row) (col : String) : List Row :=
  if hashFails df0 col then dff
  else if isCatD col || decide (nunique dff col < 10) then
    dff.filter (fun r => decide (getCell r col ∈ (ch col).catSel))
  else if isNumD col then
    dff.filter (fun r => betweenCell (ch col).numLo (ch col).numHi (getCell r col))
  else if (ch col).textInput = "" then dff
  else dff.filter (fun r => textMatches (ch col) (getCell r col))

/-- Loop of `filter_dataframe` over the selected columns, threading
`df_filtered`. -/
def filterLoop (ch : Choices) (isCatD isNumD : String → Bool)
    (df0 : List Row) : List Row → List String → List Row
  | dff, [] => dff
  | dff, col :: cols => filterLoop ch isCatD isNumD df0 (stepFilter ch isCatD isNumD df0 dff col) cols

/-- Model of `filter_dataframe` (app.py lines 65-118): start from a copy of
the input frame and apply the per-column filters of the selected columns in
order. -/
def filter_dataframe (ch : Choices) (isCatD isNumD : String → Bool)
    (df : List Row) (to_filter_columns : List String) : List Row :=
  filterLoop ch isCatD isNumD df df to_filter_columns

/-- Branch taken at each step of a `filter_dataframe` run, in column order:
the classification the loop actually uses, computed on the partially
filtered frame. -/
def branchTrace (ch : Choices) (isCatD isNumD : String → Bool)
    (df0 : List Row) : List Row → List String → List ColClass
  | _, [] => []
  | dff, col :: cols =>
      classifyFull isCatD isNumD df0 dff col ::
        branchTrace ch isCatD isNumD df0 (stepFilter ch isCatD isNumD df0 dff col) cols

/-- Conjunction of the row predicates a `filter_dataframe` run applies,
with each branch chosen from the intermediate frame it is reached on. -/
def loopPred (ch : Choices) (isCatD isNumD : String → Bool)
    (df0 : List Row) : List Row → List String → Row → Bool
  | _, [], _ => true
  | dff, col :: cols, r =>
      stepPred ch (classifyFull isCatD isNumD df0 dff col) col r &&
        loopPred ch isCatD isNumD df0 (stepFilter ch isCatD isNumD df0 dff col) cols r

/-- Variant of `filter_dataframe` that classifies every column on the
original input frame instead of on the partially filtered frame; the foil
used to show which of the two the code implements. -/
def filterLoopStatic (ch : Choices) (isCatD isNumD : String → Bool)
    (df0 : List Row) : List Row → List String → List Row
  | dff, [] => dff
  | dff, col :: cols =>
      filterLoopStatic ch isCatD isNumD df0
        (dff.filter (stepPred ch (classifyFull isCatD isNumD df0 df0 col) col)) cols

/-- Entry point of the static-classification foil. -/
def filter_dataframe_static (ch : Choices) (isCatD isNumD : String → Bool)
    (df : List Row) (to_filter_columns : List String) : List Row :=
  filterLoopStatic ch isCatD isNumD df df to_filter_columns

/-- Does the loop body allocate a new dataframe object for this column?
The `continue` of the skip branch and the untaken `if user_text_input`
branch leave `df_filtered` untouched; every other branch evaluates a
boolean-indexing expression, which pandas answers with a fresh object. -/
def stepAllocates (ch : Choices) (isCatD isNumD : String → Bool)
    (df0 dff : List Row) (col : String) : Bool :=
  match classifyFull isCatD isNumD df0 dff col with
  | ColClass.skip => false
  | ColClass.text => !((ch col).textInput == "")
  | _ => true

/-- Store-passing form of the loop body: read the running frame at its
store index, and either leave the store alone (skip, empty text box) or
append the freshly filtered frame as a new object. -/
def stepSt (ch : Choices) (isCatD isNumD : String → Bool) (df0 : List Row)
    (σ : Store) (ref : Nat) (col : String) : Store × Nat :=
  let dff := σ.getD ref []
  if stepAllocates ch isCatD isNumD df0 dff col then
    (σ ++ [stepFilter ch isCatD isNumD df0 dff col], σ.length)
  else (σ, ref)

/-- Store-passing form of the loop over the selected columns. -/
def loopSt (ch : Choices) (isCatD isNumD : String → Bool) (df0 : List Row) :
    Store → Nat → List String → Store × Nat
  | σ, ref, [] => (σ, ref)
  | σ, ref, col :: cols =>
      let s := stepSt ch isCatD isNumD df0 σ ref col
      loopSt ch isCatD isNumD df0 s.1 s.2 cols

/-- Store-passing model of `filter_dataframe`: the input frame lives at
store index `i`; `df = df.copy()` (line 66) and `df_filtered = df.copy()`
(line 74) each allocate a fresh object, then the loop runs on the copy. -/
def filter_dataframe_st (ch : Choices) (isCatD isNumD : String → Bool)
    (σ : Store) (i : Nat) (to_filter_columns : List String) : Store × Nat :=
  let df := σ.getD i []
  let σ₂ := σ ++ [df, df]
  loopSt ch isCatD isNumD df σ₂ (σ.length + 1) to_filter_columns

/-- Model of `load_data` (app.py lines 26-36): loop over selected courses,
then selected years; when the derived path exists, read the CSV and append
it; finally return the row-wise concatenation of the collected frames, or
`none` when none was collected.  The filesystem (`pathExists`) and the CSV
reader (`read_csv`) are parameters. -/
def load_data (pathExists : String → String → Bool)
    (read_csv : String → String → List Row)
    (selected_courses selected_years : List String) : Option (List Row) :=
  let dfs := selected_courses.flatMap (fun course =>
    (selected_years.filter (fun year => pathExists course year)).map
      (fun year => read_csv course year))
  if dfs.isEmpty then none else some dfs.flatten

/-- Concrete two-column row fixture: a string column `a` and a numeric
column `b`. -/
def rowAB (a : String) (k : Int) : Row := [("a", Cell.str a), ("b", Cell.num k)]

/-- Concrete one-column row fixture with the numeric column `b`. -/
def rowB (k : Int) : Row := [("b", Cell.num k)]

/-- Fixture frame: 11 rows, column `a` holding `x` once and `y` ten times,
column `b` holding the 11 distinct numbers 0..10. -/
def dfC1 : List Row :=
  [rowAB "x" 0, rowAB "y" 1, rowAB "y" 2, rowAB "y" 3, rowAB "y" 4, rowAB "y" 5,
   rowAB "y" 6, rowAB "y" 7, rowAB "y" 8, rowAB "y" 9, rowAB "y" 10]

/-- Fixture frame: 11 rows, column `b` holding the numbers 0..10. -/
def dfC2 : List Row :=
  [rowB 0, rowB 1, rowB 2, rowB 3, rowB 4, rowB 5, rowB 6, rowB 7, rowB 8, rowB 9, rowB 10]

/-- Dtype predicate marking no column. -/
def noDtype : String → Bool := fun _ => false

/-- Dtype predicate marking exactly column `b` as numeric. -/
def numDtypeB : String → Bool := fun col => col == "b"

/-- Widget inputs keeping only `x` in column `a`; for every other column,
an empty multiselect selection and the full slider range 0..10. -/
def chC1 : Choices := fun col =>
  if col = "a" then ⟨[Cell.str "x"], 0, 10, "", false⟩
  else ⟨[], 0, 10, "", false⟩

/-- Widget inputs with the slider range 0..4 and an empty multiselect
selection for every column. -/
def chC2 : Choices := fun _ => ⟨[], 0, 4, "", false⟩

/-- Small stable fixture frame: two rows over the low-cardinality columns
`a` and `b`. -/
def dfW : List Row := [rowAB "x" 0, rowAB "y" 1]

/-- Widget inputs keeping `x` in column `a` and both numbers in column
`b`. -/
def chW : Choices := fun col =>
  if col = "a" then ⟨[Cell.str "x"], 0, 10, "", false⟩
  else ⟨[Cell.num 0, Cell.num 1], 0, 10, "", false⟩

/-- Filesystem stub on which every path exists. -/
def fsAll : String → String → Bool := fun _ _ => true

/-- Filesystem stub on which no path exists. -/
def fsNone : String → String → Bool := fun _ _ => false

/-- Filesystem stub on which only year 2021 paths exist. -/
def fsOnly2021 : String → String → Bool := fun _ year => year == "2021"

/-- CSV reader stub answering one row naming the course and year. -/
def csvStub : String → String → List Row :=
  fun course year => [[("course", Cell.str course), ("year", Cell.str year)]]

/-- Fixture frame for the numeric range claim: the 10 distinct numbers 0..9
in column `b`, plus one row whose `b` cell is missing. -/
def dfC5 : List Row :=
  [rowB 0, rowB 1, rowB 2, rowB 3, rowB 4, rowB 5, rowB 6, rowB 7, rowB 8, rowB 9,
   [("b", Cell.na)]]

/-- Widget inputs with the slider at the full range 0..9 of `dfC5`. -/
def chC5 : Choices := fun _ => ⟨[], 0, 9, "", false⟩

/-- Fixture frame for the text claim: 10 distinct strings in column `t`,
plus one row whose `t` cell is missing. -/
def dfC6 : List Row :=
  [[("t", Cell.str "alpha")], [("t", Cell.str "Beta")], [("t", Cell.str "gamma")],
   [("t", Cell.str "delta")], [("t", Cell.str "epsilon")], [("t", Cell.str "zeta")],
   [("t", Cell.str "eta")], [("t", Cell.str "theta")], [("t", Cell.str "iota")],
   [("t", Cell.str "kappa")], [("t", Cell.na)]]

/-- Widget inputs with an empty text box. -/
def chC6e : Choices := fun _ => ⟨[], 0, 10, "", false⟩

/-- Widget inputs with the pattern `ta` in the text box, case checkbox at
its default (off). -/
def chC6p : Choices := fun _ => ⟨[], 0, 10, "ta", false⟩

/-- Fixture frame whose column `a` holds unhashable objects (for example a
Python list nested in a cell) while column `b` is a small string column. -/
def dfC7 : List Row :=
  [[("a", Cell.obj 0), ("b", Cell.str "u")], [("a", Cell.obj 1), ("b", Cell.str "v")]]

/-- Widget inputs keeping only `u` in column `b`. -/
def chC7 : Choices := fun _ => ⟨[Cell.str "u"], 0, 10, "", false⟩

/-- Each loop body application is a `List.filter` by the predicate of the
branch the classification selects. -/
theorem stepFilter_eq_filter (ch : Choices) (isCatD isNumD : String → Bool)
    (df0 dff : List Row) (col : String) :
    stepFilter ch isCatD isNumD df0 dff col =
      dff.filter (stepPred ch (classifyFull isCatD isNumD df0 dff col) col) := by
  unfold stepFilter classifyFull stepPred
  by_cases h1 : hashFails df0 col = true
  · simp [h1]
  · simp only [h1]
    by_cases h2 : (isCatD col || decide (nunique dff col < 10)) = true
    · simp [h2]
    · simp only [h2]
      by_cases h3 : isNumD col = true
      · simp [h3]
      · simp only [h3]
        by_cases h4 : (ch col).textInput = ""
        · simp [h4]
        · simp [h4]

/-- A skipped column leaves the running frame unchanged. -/
theorem stepFilter_of_hashFails (ch : Choices) (isCatD isNumD : String → Bool)
    (df0 dff : List Row) (col : String) (h : hashFails df0 col = true) :
    stepFilter ch isCatD isNumD df0 dff col = dff := by
  simp [stepFilter, h]

/-- The loop body returns a sublist of the running frame. -/
theorem stepFilter_sublist (ch : Choices) (isCatD isNumD : String → Bool)
    (df0 dff : List Row) (col : String) :
    (stepFilter ch isCatD isNumD df0 dff col).Sublist dff := by
  rw [stepFilter_eq_filter]
  exact List.filter_sublist dff

/-- The whole loop returns a sublist of the frame it starts from. -/
theorem filterLoop_sublist (ch : Choices) (isCatD isNumD : String → Bool)
    (df0 : List Row) (cols : List String) :
    ∀ dff : List Row, (filterLoop ch isCatD isNumD df0 dff cols).Sublist dff := by
  induction cols with
  | nil => intro dff; exact List.Sublist.refl dff
  | cons col cols ih =>
      intro dff
      exact (ih (stepFilter ch isCatD isNumD df0 dff col)).trans
        (stepFilter_sublist ch isCatD isNumD df0 dff col)

/-- The loop is the filter of the conjunction of the predicates it applies. -/
theorem filterLoop_eq_filter (ch : Choices) (isCatD isNumD : String → Bool)
    (df0 : List Row) (cols : List String) :
    ∀ dff : List Row, filterLoop ch isCatD isNumD df0 dff cols =
      dff.filter (loopPred ch isCatD isNumD df0 dff cols) := by
  induction cols with
  | nil =>
      intro dff
      simp [filterLoop, loopPred]
  | cons col cols ih =>
      intro dff
      have step := stepFilter_eq_filter ch isCatD isNumD df0 dff col
      calc filterLoop ch isCatD isNumD df0 dff (col :: cols)
          = filterLoop ch isCatD isNumD df0 (stepFilter ch isCatD isNumD df0 dff col) cols := rfl
        _ = (stepFilter ch isCatD isNumD df0 dff col).filter
              (loopPred ch isCatD isNumD df0 (stepFilter ch isCatD isNumD df0 dff col) cols) :=
            ih _
        _ = (dff.filter (stepPred ch (classifyFull isCatD isNumD df0 dff col) col)).filter
              (loopPred ch isCatD isNumD df0 (stepFilter ch isCatD isNumD df0 dff col) cols) := by
            rw [step]
        _ = dff.filter (loopPred ch isCatD isNumD df0 dff (col :: cols)) := by
            rw [List.filter_filter]
            apply List.filter_congr
            intro r _
            show (loopPred ch isCatD isNumD df0 (stepFilter ch isCatD isNumD df0 dff col) cols r &&
              stepPred ch (classifyFull isCatD isNumD df0 dff col) col r) = _
            rw [Bool.and_comm]
            rfl

/-- Two runs with equal branch traces apply equal predicate conjunctions. -/
theorem loopPred_congr (ch : Choices) (isCatD isNumD : String → Bool)
    (cols : List String) :
    ∀ (df0 a df0' b : List Row),
      branchTrace ch isCatD isNumD df0 a cols = branchTrace ch isCatD isNumD df0' b cols →
      loopPred ch isCatD isNumD df0 a cols = loopPred ch isCatD isNumD df0' b cols := by
  induction cols with
  | nil =>
      intro df0 a df0' b _
      funext r
      simp [loopPred]
  | cons col cols ih =>
      intro df0 a df0' b h
      simp only [branchTrace, List.cons.injEq] at h
      funext r
      show (stepPred ch (classifyFull isCatD isNumD df0 a col) col r &&
          loopPred ch isCatD isNumD df0 (stepFilter ch isCatD isNumD df0 a col) cols r) = _
      rw [h.1, ih df0 (stepFilter ch isCatD isNumD df0 a col)
        df0' (stepFilter ch isCatD isNumD df0' b col) h.2]
      rfl

/-- Claim C10: every row returned by filter_dataframe is a row of the input
frame, with order and multiplicity preserved; filtering never adds,
duplicates, or alters rows. -/
theorem c10_rows_subset (ch : Choices) (isCatD isNumD : String → Bool)
    (df : List Row) (cols : List String) :
    (filter_dataframe ch isCatD isNumD df cols).Sublist df :=
  filterLoop_sublist ch isCatD isNumD df cols df

/-- Claim C7: a selected column whose values are not hashable (the set
comprehension probe on app.py line 78 raises TypeError) is passed through
unfiltered, and the run equals the run over the remaining columns, whose
filters are still applied. -/
theorem c7_unhashable_skipped (ch : Choices) (isCatD isNumD : String → Bool)
    (df : List Row) (cols : List String) (col : String)
    (h : hashFails df col = true) :
    filter_dataframe ch isCatD isNumD df cols =
      filter_dataframe ch isCatD isNumD df (cols.filter (fun c => !(c == col))) := by
  unfold filter_dataframe
  have main : ∀ (cs : List String) (dff : List Row),
      filterLoop ch isCatD isNumD df dff cs =
        filterLoop ch isCatD isNumD df dff (cs.filter (fun c => !(c == col))) := by
    intro cs
    induction cs with
    | nil => intro dff; rfl
    | cons c cs ih =>
        intro dff
        by_cases hc : c = col
        · have hbeq : (c == col) = true := by simp [hc]
          have hskip : stepFilter ch isCatD isNumD df dff c = dff := by
            rw [hc]
            exact stepFilter_of_hashFails ch isCatD isNumD df dff col h
          show filterLoop ch isCatD isNumD df (stepFilter ch isCatD isNumD df dff c) cs =
            filterLoop ch isCatD isNumD df dff ((c :: cs).filter (fun x => !(x == col)))
          have hf : (c :: cs).filter (fun x => !(x == col)) =
              cs.filter (fun x => !(x == col)) := by
            simp [List.filter_cons, hbeq]
          rw [hskip, hf]
          exact ih dff
        · have hbeq : (c == col) = false := by simp [hc]
          show filterLoop ch isCatD isNumD df (stepFilter ch isCatD isNumD df dff c) cs =
            filterLoop ch isCatD isNumD df dff ((c :: cs).filter (fun x => !(x == col)))
          have hf : (c :: cs).filter (fun x => !(x == col)) =
              c :: cs.filter (fun x => !(x == col)) := by
            simp [List.filter_cons, hbeq]
          rw [hf]
          show filterLoop ch isCatD isNumD df (stepFilter ch isCatD isNumD df dff c) cs =
            filterLoop ch isCatD isNumD df (stepFilter ch isCatD isNumD df dff c)
              (cs.filter (fun x => !(x == col)))
          exact ih _
  exact main cols df

/-- Claim C7 witness: on a frame whose column a holds unhashable objects,
the run over both columns equals the run over column b alone, which keeps
the single matching row. -/
theorem c7_unhashable_skipped_witness :
    hashFails dfC7 "a" = true ∧
    filter_dataframe chC7 noDtype noDtype dfC7 ["a", "b"] =
      filter_dataframe chC7 noDtype noDtype dfC7 (["a", "b"].filter (fun c => !(c == "a"))) :=
  ⟨by decide, c7_unhashable_skipped chC7 noDtype noDtype dfC7 ["a", "b"] "a" (by decide)⟩

/-- Claim C1 counterexample: with fixed per-column widget inputs, running
filter_dataframe on the same frame with the two columns in swapped order
yields different row sets.  Filtering on a first collapses the distinct
count of b below 10, so b is filtered as categorical (empty selection)
rather than numeric (full range): the row survives order b,a but not order
a,b. -/
theorem c1_counterexample :
    rowAB "x" 0 ∈ filter_dataframe chC1 noDtype numDtypeB dfC1 ["b", "a"] ∧
    rowAB "x" 0 ∉ filter_dataframe chC1 noDtype numDtypeB dfC1 ["a", "b"] := by
  decide

/-- Claim C1 amended: when the classification of each of the two columns is
unchanged by first applying the filter of the other column, running
filter_dataframe with the columns in swapped order yields identical
results. -/
theorem c1_order_independent_of_stable_classification (ch : Choices)
    (isCatD isNumD : String → Bool) (df : List Row) (A B : String)
    (h1 : classifyFull isCatD isNumD df (stepFilter ch isCatD isNumD df df B) A =
      classifyFull isCatD isNumD df df A)
    (h2 : classifyFull isCatD isNumD df (stepFilter ch isCatD isNumD df df A) B =
      classifyFull isCatD isNumD df df B) :
    filter_dataframe ch isCatD isNumD df [A, B] =
      filter_dataframe ch isCatD isNumD df [B, A] := by
  have eAB : filter_dataframe ch isCatD isNumD df [A, B] =
      (df.filter (stepPred ch (classifyFull isCatD isNumD df df A) A)).filter
        (stepPred ch (classifyFull isCatD isNumD df df B) B) := by
    show stepFilter ch isCatD isNumD df (stepFilter ch isCatD isNumD df df A) B = _
    rw [stepFilter_eq_filter, h2, stepFilter_eq_filter]
  have eBA : filter_dataframe ch isCatD isNumD df [B, A] =
      (df.filter (stepPred ch (classifyFull isCatD isNumD df df B) B)).filter
        (stepPred ch (classifyFull isCatD isNumD df df A) A) := by
    show stepFilter ch isCatD isNumD df (stepFilter ch isCatD isNumD df df B) A = _
    rw [stepFilter_eq_filter, h1, stepFilter_eq_filter]
  rw [eAB, eBA, List.filter_filter, List.filter_filter]
  apply List.filter_congr
  intro r _
  rw [Bool.and_comm]

/-- Claim C1 amended witness: on a two-row frame with two stable
low-cardinality columns, both hypotheses hold and the swapped runs agree. -/
theorem c1_order_independent_witness :
    (classifyFull noDtype noDtype dfW (stepFilter chW noDtype noDtype dfW dfW "b") "a" =
      classifyFull noDtype noDtype dfW dfW "a") ∧
    (classifyFull noDtype noDtype dfW (stepFilter chW noDtype noDtype dfW dfW "a") "b" =
      classifyFull noDtype noDtype dfW dfW "b") ∧
    filter_dataframe chW noDtype noDtype dfW ["a", "b"] =
      filter_dataframe chW noDtype noDtype dfW ["b", "a"] :=
  ⟨by decide, by decide,
    c1_order_independent_of_stable_classification chW noDtype noDtype dfW "a" "b"
      (by decide) (by decide)⟩

/-- Claim C2 counterexample: filtering an already-filtered frame with the
same selected column and the same widget inputs does not reproduce the
result.  The first pass filters b as numeric to the range 0..4; on the
result, b has fewer than 10 distinct values, so the second pass filters it
as categorical with the (empty) multiselect selection and drops every
row. -/
theorem c2_counterexample :
    filter_dataframe chC2 noDtype numDtypeB
        (filter_dataframe chC2 noDtype numDtypeB dfC2 ["b"]) ["b"] ≠
      filter_dataframe chC2 noDtype numDtypeB dfC2 ["b"] := by
  decide

/-- Claim C2 amended: filter_dataframe is idempotent whenever re-running it
on its own output classifies every selected column into the same branch as
the original run did. -/
theorem c2_idempotent_of_stable_branches (ch : Choices)
    (isCatD isNumD : String → Bool) (df : List Row) (cols : List String)
    (H : branchTrace ch isCatD isNumD (filter_dataframe ch isCatD isNumD df cols)
        (filter_dataframe ch isCatD isNumD df cols) cols =
      branchTrace ch isCatD isNumD df df cols) :
    filter_dataframe ch isCatD isNumD (filter_dataframe ch isCatD isNumD df cols) cols =
      filter_dataframe ch isCatD isNumD df cols := by
  have hRf : filter_dataframe ch isCatD isNumD df cols =
      df.filter (loopPred ch isCatD isNumD df df cols) :=
    filterLoop_eq_filter ch isCatD isNumD df cols df
  have hrun : filter_dataframe ch isCatD isNumD (filter_dataframe ch isCatD isNumD df cols) cols =
      (filter_dataframe ch isCatD isNumD df cols).filter
        (loopPred ch isCatD isNumD (filter_dataframe ch isCatD isNumD df cols)
          (filter_dataframe ch isCatD isNumD df cols) cols) :=
    filterLoop_eq_filter ch isCatD isNumD (filter_dataframe ch isCatD isNumD df cols) cols
      (filter_dataframe ch isCatD isNumD df cols)
  rw [hrun, loopPred_congr ch isCatD isNumD cols
    (filter_dataframe ch isCatD isNumD df cols) (filter_dataframe ch isCatD isNumD df cols)
    df df H]
  apply List.filter_eq_self.mpr
  intro r hr
  rw [hRf] at hr
  exact List.of_mem_filter hr

/-- Claim C2 amended witness: on a two-row frame with a stable categorical
column, the branch trace is unchanged and re-filtering reproduces the
result. -/
theorem c2_idempotent_witness :
    (branchTrace chW noDtype noDtype (filter_dataframe chW noDtype noDtype dfW ["a"])
        (filter_dataframe chW noDtype noDtype dfW ["a"]) ["a"] =
      branchTrace chW noDtype noDtype dfW dfW ["a"]) ∧
    filter_dataframe chW noDtype noDtype (filter_dataframe chW noDtype noDtype dfW ["a"]) ["a"] =
      filter_dataframe chW noDtype noDtype dfW ["a"] :=
  ⟨by decide, c2_idempotent_of_stable_branches chW noDtype noDtype dfW ["a"] (by decide)⟩

/-- Claim C9: the type classification of a selected column is computed from
the partially filtered frame, not from the original input: on the fixture,
column b is numeric on the original frame but categorical once the filter
of column a has run, and the run differs from the foil that classifies on
the original frame. -/
theorem c9_classification_on_filtered_frame :
    classifyFull noDtype numDtypeB dfC1 dfC1 "b" = ColClass.num ∧
    classifyFull noDtype numDtypeB dfC1
        (stepFilter chC1 noDtype numDtypeB dfC1 dfC1 "a") "b" = ColClass.cat ∧
    filter_dataframe chC1 noDtype numDtypeB dfC1 ["a", "b"] ≠
      filter_dataframe_static chC1 noDtype numDtypeB dfC1 ["a", "b"] := by
  decide

/-- Claim C3 counterexample: with no course selected, every file of the
(empty) selection of pairs exists vacuously, yet load_data returns the
no-data sentinel instead of a table of 0 rows.  (The app itself only calls
load_data with nonempty selections, app.py line 122.) -/
theorem c3_counterexample : load_data fsAll csvStub [] ["2021"] = none := rfl

/-- Claim C3 amended: for every nonempty selection of courses and years
whose data files all exist, load_data returns the row-wise concatenation of
the individual files in load order, and its row count is the sum of the row
counts of the individual files. -/
theorem c3_load_rowcount (pathExists : String → String → Bool)
    (read_csv : String → String → List Row) (courses years : List String)
    (hc : courses ≠ []) (hy : years ≠ [])
    (hall : ∀ c ∈ courses, ∀ y ∈ years, pathExists c y = true) :
    load_data pathExists read_csv courses years =
      some ((courses.flatMap (fun c => years.map (read_csv c))).flatten) ∧
    ((courses.flatMap (fun c => years.map (read_csv c))).flatten).length =
      (courses.flatMap (fun c => years.map (fun y => (read_csv c y).length))).sum := by
  have hdfs : courses.flatMap
        (fun c => (years.filter (fun y => pathExists c y)).map (read_csv c)) =
      courses.flatMap (fun c => years.map (read_csv c)) := by
    apply List.flatMap_congr
    intro c hcmem
    rw [List.filter_eq_self.mpr (fun y hymem => hall c hcmem y hymem)]
  constructor
  · unfold load_data
    rw [hdfs]
    have hne : courses.flatMap (fun c => years.map (read_csv c)) ≠ [] := by
      cases courses with
      | nil => exact absurd rfl hc
      | cons c cs =>
          cases years with
          | nil => exact absurd rfl hy
          | cons y ys => simp
    simp [List.isEmpty_eq_false.mpr hne]
  · rw [List.length_flatten, List.map_flatMap]
    congr 1
    apply List.flatMap_congr
    intro c _
    rw [List.map_map]
    rfl

/-- Claim C3 amended witness: one course and two years on the everything-
exists filesystem stub give a two-row concatenation. -/
theorem c3_load_rowcount_witness :
    load_data fsAll csvStub ["dezoomcamp"] ["2021", "2022"] =
      some (((["dezoomcamp"] : List String).flatMap
        (fun c => (["2021", "2022"] : List String).map (csvStub c))).flatten) ∧
    (((["dezoomcamp"] : List String).flatMap
        (fun c => (["2021", "2022"] : List String).map (csvStub c))).flatten).length =
      ((["dezoomcamp"] : List String).flatMap
        (fun c => (["2021", "2022"] : List String).map (fun y => (csvStub c y).length))).sum :=
  c3_load_rowcount fsAll csvStub ["dezoomcamp"] ["2021", "2022"]
    (by decide) (by decide) (by decide)

/-- Claim C4: when no data file path exists for the selection, load_data
returns the no-data sentinel `none` (first part); and whenever at least one
path exists, load_data returns a table built from exactly the existing
paths in loop order, so missing paths are skipped while the other files
still load (second part).  The embedding is a total function, reflecting
that the Python loop guards every read by `os.path.exists` and so never
raises on a missing path. -/
theorem c4_load_missing_paths :
    (∀ (pathExists : String → String → Bool) (read_csv : String → String → List Row)
      (courses years : List String),
      (∀ c ∈ courses, ∀ y ∈ years, pathExists c y = false) →
      load_data pathExists read_csv courses years = none) ∧
    (∀ (pathExists : String → String → Bool) (read_csv : String → String → List Row)
      (courses years : List String) (c0 y0 : String),
      c0 ∈ courses → y0 ∈ years → pathExists c0 y0 = true →
      load_data pathExists read_csv courses years =
        some ((courses.flatMap
          (fun c => (years.filter (fun y => pathExists c y)).map (read_csv c))).flatten)) := by
  constructor
  · intro pathExists read_csv courses years hnone
    have hdfs : courses.flatMap
        (fun c => (years.filter (fun y => pathExists c y)).map (read_csv c)) = [] := by
      have : courses.flatMap
          (fun c => (years.filter (fun y => pathExists c y)).map (read_csv c)) =
          courses.flatMap (fun _ => ([] : List (List Row))) := by
        apply List.flatMap_congr
        intro c hcmem
        rw [List.filter_eq_nil_iff.mpr (fun y hymem => by simp [hnone c hcmem y hymem])]
        rfl
      rw [this]
      simp
    unfold load_data
    rw [hdfs]
    rfl
  · intro pathExists read_csv courses years c0 y0 hc0 hy0 hpath
    have hmem : read_csv c0 y0 ∈ courses.flatMap
        (fun c => (years.filter (fun y => pathExists c y)).map (read_csv c)) := by
      apply List.mem_flatMap.mpr
      refine ⟨c0, hc0, ?_⟩
      apply List.mem_map.mpr
      exact ⟨y0, List.mem_filter.mpr ⟨hy0, hpath⟩, rfl⟩
    have hne : courses.flatMap
        (fun c => (years.filter (fun y => pathExists c y)).map (read_csv c)) ≠ [] :=
      List.ne_nil_of_mem hmem
    unfold load_data
    simp [List.isEmpty_eq_false.mpr hne]

/-- Claim C4 witness: the first part on the nothing-exists stub returns the
sentinel; the second part on the only-2021 stub loads exactly the 2021
file. -/
theorem c4_load_missing_paths_witness :
    load_data fsNone csvStub ["dezoomcamp"] ["2021"] = none ∧
    load_data fsOnly2021 csvStub ["dezoomcamp"] ["2021", "2022"] =
      some (((["dezoomcamp"] : List String).flatMap
        (fun c => ((["2021", "2022"] : List String).filter
          (fun y => fsOnly2021 c y)).map (csvStub c))).flatten) :=
  ⟨c4_load_missing_paths.1 fsNone csvStub ["dezoomcamp"] ["2021"] (by decide),
   c4_load_missing_paths.2 fsOnly2021 csvStub ["dezoomcamp"] ["2021", "2022"]
     "dezoomcamp" "2021" (by decide) (by decide) (by decide)⟩

/-- Claim C5: on a column the step classifies as numeric (hashable values,
not categorical, numeric dtype), setting the slider to the column minimum
and maximum computed over the non-missing values makes the step the
identity up to missing values: it returns exactly the rows whose value in
that column is non-missing.  The dtype-coherence hypothesis `hcoh` states
what pandas guarantees for a numeric-dtype column: every cell is a number
or NaN. -/
theorem c5_numeric_full_range_identity (ch : Choices) (isCatD isNumD : String → Bool)
    (df0 dff : List Row) (col : String)
    (hhash : hashFails df0 col = false)
    (hcatD : isCatD col = false)
    (hnun : ¬ nunique dff col < 10)
    (hnumD : isNumD col = true)
    (hcoh : ∀ r ∈ dff, getCell r col = Cell.na ∨ isNumCell (getCell r col) = true)
    (hlo : (colNums dff col).min? = some ((ch col).numLo))
    (hhi : (colNums dff col).max? = some ((ch col).numHi)) :
    stepFilter ch isCatD isNumD df0 dff col =
      dff.filter (fun r => getCell r col != Cell.na) := by
  have hbranch : stepFilter ch isCatD isNumD df0 dff col =
      dff.filter (fun r => betweenCell (ch col).numLo (ch col).numHi (getCell r col)) := by
    simp [stepFilter, hhash, hcatD, hnun, hnumD]
  rw [hbranch]
  apply List.filter_congr
  intro r hr
  rcases hcoh r hr with hna | hnum
  · rw [hna]
    rfl
  · obtain ⟨v, hv⟩ : ∃ v, getCell r col = Cell.num v := by
      cases hcell : getCell r col with
      | num v => exact ⟨v, rfl⟩
      | na => rw [hcell] at hnum; exact absurd hnum (by simp [isNumCell])
      | str s => rw [hcell] at hnum; exact absurd hnum (by simp [isNumCell])
      | obj i => rw [hcell] at hnum; exact absurd hnum (by simp [isNumCell])
    rw [hv]
    have hmem : v ∈ colNums dff col := by
      unfold colNums
      exact List.mem_filterMap.mpr ⟨r, hr, by rw [hv]⟩
    have h1 : (ch col).numLo ≤ v :=
      ((List.le_min?_iff (α := Int) (fun a b c => le_min_iff) hlo
        (x := (ch col).numLo)).mp le_rfl) v hmem
    have h2 : v ≤ (ch col).numHi :=
      ((List.max?_le_iff (α := Int) (fun a b c => max_le_iff) hhi
        (x := (ch col).numHi)).mp le_rfl) v hmem
    simp [betweenCell, h1, h2]

/-- Claim C5 witness: on the fixture with the 10 distinct values 0..9 and
one missing cell, the slider at (0, 9) keeps exactly the 10 non-missing
rows. -/
theorem c5_numeric_full_range_identity_witness :
    (colNums dfC5 "b").min? = some ((chC5 "b").numLo) ∧
    (colNums dfC5 "b").max? = some ((chC5 "b").numHi) ∧
    stepFilter chC5 noDtype numDtypeB dfC5 dfC5 "b" =
      dfC5.filter (fun r => getCell r "b" != Cell.na) :=
  ⟨by decide, by decide,
    c5_numeric_full_range_identity chC5 noDtype numDtypeB dfC5 dfC5 "b"
      (by decide) (by decide) (by decide) (by decide) (by decide) (by decide) (by decide)⟩

/-- Helper: the loop body takes the free-text branch only when the column
is hashable, not categorical, and not of numeric dtype. -/
theorem classifyFull_text_elim (isCatD isNumD : String → Bool)
    (df0 dff : List Row) (col : String)
    (h : classifyFull isCatD isNumD df0 dff col = ColClass.text) :
    hashFails df0 col = false ∧ (isCatD col || decide (nunique dff col < 10)) = false ∧
      isNumD col = false := by
  unfold classifyFull at h
  split_ifs at h with h1 h2 h3
  exact ⟨by simpa using h1, by simpa using h2, by simpa using h3⟩

/-- Claim C6: on a column the step classifies as free text, an empty text
box keeps all rows of the current frame (first part); with a non-empty
pattern a row whose cell in that column is missing is never kept, since
`na=False` maps missing cells to no-match (second part); and matching with
the case checkbox at its default (off) is case-insensitive: values equal up
to letter case match identically (third part). -/
theorem c6_text_filter :
    (∀ (ch : Choices) (isCatD isNumD : String → Bool) (df0 dff : List Row) (col : String),
      classifyFull isCatD isNumD df0 dff col = ColClass.text →
      (ch col).textInput = "" →
      stepFilter ch isCatD isNumD df0 dff col = dff) ∧
    (∀ (ch : Choices) (isCatD isNumD : String → Bool) (df0 dff : List Row)
      (col : String) (r : Row),
      classifyFull isCatD isNumD df0 dff col = ColClass.text →
      (ch col).textInput ≠ "" →
      r ∈ stepFilter ch isCatD isNumD df0 dff col →
      getCell r col ≠ Cell.na) ∧
    (∀ (pattern s t : String),
      s.toList.map Char.toLower = t.toList.map Char.toLower →
      strContains pattern false s = strContains pattern false t) := by
  refine ⟨?_, ?_, ?_⟩
  · intro ch isCatD isNumD df0 dff col hcls hempty
    obtain ⟨h1, h2, h3⟩ := classifyFull_text_elim isCatD isNumD df0 dff col hcls
    simp [stepFilter, h1, h2, h3, hempty]
  · intro ch isCatD isNumD df0 dff col r hcls hpat hr
    obtain ⟨h1, h2, h3⟩ := classifyFull_text_elim isCatD isNumD df0 dff col hcls
    have hstep : stepFilter ch isCatD isNumD df0 dff col =
        dff.filter (fun x => textMatches (ch col) (getCell x col)) := by
      simp [stepFilter, h1, h2, h3, hpat]
    rw [hstep] at hr
    have hmatch : textMatches (ch col) (getCell r col) = true :=
      List.of_mem_filter (p := fun x => textMatches (ch col) (getCell x col)) hr
    intro hna
    rw [hna] at hmatch
    exact absurd hmatch (by simp [textMatches])
  · intro pattern s t hlower
    simp only [strContains, if_neg (Bool.false_ne_true)]
    rw [hlower]

/-- Claim C6 witness: on the 11-row text fixture, the empty text box keeps
the whole frame; the row holding `Beta` survives the pattern `ta` while the
missing-cell row cannot; and `Beta` and `bEtA` match the pattern
identically under the default case-insensitive mode. -/
theorem c6_text_filter_witness :
    (classifyFull noDtype noDtype dfC6 dfC6 "t" = ColClass.text ∧
      stepFilter chC6e noDtype noDtype dfC6 dfC6 "t" = dfC6) ∧
    ([("t", Cell.str "Beta")] ∈ stepFilter chC6p noDtype noDtype dfC6 dfC6 "t" ∧
      getCell [("t", Cell.str "Beta")] "t" ≠ Cell.na) ∧
    ("Beta".toList.map Char.toLower = "bEtA".toList.map Char.toLower ∧
      strContains "ta" false "Beta" = strContains "ta" false "bEtA") :=
  ⟨⟨by decide, c6_text_filter.1 chC6e noDtype noDtype dfC6 dfC6 "t" (by decide) rfl⟩,
   ⟨by decide, c6_text_filter.2.1 chC6p noDtype noDtype dfC6 dfC6 "t"
      [("t", Cell.str "Beta")] (by decide) (by decide) (by decide)⟩,
   ⟨by decide, c6_text_filter.2.2 "ta" "Beta" "bEtA" (by decide)⟩⟩

/-- Helper: the loop body is skipped only when the hashability probe
fails. -/
theorem classifyFull_skip_elim (isCatD isNumD : String → Bool)
    (df0 dff : List Row) (col : String)
    (h : classifyFull isCatD isNumD df0 dff col = ColClass.skip) :
    hashFails df0 col = true := by
  unfold classifyFull at h
  split_ifs at h with h1
  exact h1

/-- A loop body that allocates no new frame leaves the running frame
unchanged. -/
theorem stepFilter_of_not_allocates (ch : Choices) (isCatD isNumD : String → Bool)
    (df0 dff : List Row) (col : String)
    (h : stepAllocates ch isCatD isNumD df0 dff col = false) :
    stepFilter ch isCatD isNumD df0 dff col = dff := by
  rcases hcls : classifyFull isCatD isNumD df0 dff col with _ | _ | _ | _ <;>
    simp only [stepAllocates, hcls] at h
  · exact stepFilter_of_hashFails ch isCatD isNumD df0 dff col
      (classifyFull_skip_elim isCatD isNumD df0 dff col hcls)
  · exact absurd h (by decide)
  · exact absurd h (by decide)
  · have hempty : (ch col).textInput = "" := by simpa using h
    obtain ⟨h1, h2, h3⟩ := classifyFull_text_elim isCatD isNumD df0 dff col hcls
    simp [stepFilter, h1, h2, h3, hempty]

/-- Store invariant of the loop: pre-existing store entries are preserved,
the returned reference holds the purely computed filter result, and the
returned reference never points below the preserved region. -/
theorem loopSt_spec (ch : Choices) (isCatD isNumD : String → Bool) (df0 : List Row)
    (cols : List String) :
    ∀ (σ : Store) (ref : Nat) (dff : List Row) (n : Nat),
      n ≤ σ.length → n ≤ ref → σ[ref]? = some dff →
      (∀ j, j < n → ((loopSt ch isCatD isNumD df0 σ ref cols).1)[j]? = σ[j]?) ∧
      ((loopSt ch isCatD isNumD df0 σ ref cols).1)[(loopSt ch isCatD isNumD df0 σ ref cols).2]? =
        some (filterLoop ch isCatD isNumD df0 dff cols) ∧
      n ≤ (loopSt ch isCatD isNumD df0 σ ref cols).2 := by
  induction cols with
  | nil =>
      intro σ ref dff n hn href hsome
      exact ⟨fun j _ => rfl, hsome, href⟩
  | cons c cs ih =>
      intro σ ref dff n hn href hsome
      have hsplit : loopSt ch isCatD isNumD df0 σ ref (c :: cs) =
          loopSt ch isCatD isNumD df0 (stepSt ch isCatD isNumD df0 σ ref c).1
            (stepSt ch isCatD isNumD df0 σ ref c).2 cs := rfl
      by_cases halloc : stepAllocates ch isCatD isNumD df0 dff c = true
      · have hstep : stepSt ch isCatD isNumD df0 σ ref c =
            (σ ++ [stepFilter ch isCatD isNumD df0 dff c], σ.length) := by
          simp [stepSt, hsome, halloc]
        have hloop : loopSt ch isCatD isNumD df0 σ ref (c :: cs) =
            loopSt ch isCatD isNumD df0 (σ ++ [stepFilter ch isCatD isNumD df0 dff c])
              σ.length cs := by
          rw [hsplit, hstep]
        obtain ⟨hpres, hcont, hge⟩ := ih (σ ++ [stepFilter ch isCatD isNumD df0 dff c])
          σ.length (stepFilter ch isCatD isNumD df0 dff c) n
          (by rw [List.length_append]; omega) hn
          (List.getElem?_concat_length σ (stepFilter ch isCatD isNumD df0 dff c))
        refine ⟨?_, ?_, ?_⟩
        · intro j hj
          rw [hloop, hpres j hj, List.getElem?_append, if_pos (show j < σ.length by omega)]
        · rw [hloop]
          exact hcont
        · rw [hloop]
          exact hge
      · have hnoalloc : stepAllocates ch isCatD isNumD df0 dff c = false := by
          simpa using halloc
        have hid : stepFilter ch isCatD isNumD df0 dff c = dff :=
          stepFilter_of_not_allocates ch isCatD isNumD df0 dff c hnoalloc
        have hstep : stepSt ch isCatD isNumD df0 σ ref c = (σ, ref) := by
          simp [stepSt, hsome, hnoalloc]
        have hloop : loopSt ch isCatD isNumD df0 σ ref (c :: cs) =
            loopSt ch isCatD isNumD df0 σ ref cs := by
          rw [hsplit, hstep]
        obtain ⟨hpres, hcont, hge⟩ := ih σ ref dff n hn href hsome
        refine ⟨?_, ?_, ?_⟩
        · intro j hj
          rw [hloop]
          exact hpres j hj
        · rw [hloop]
          have hfl : filterLoop ch isCatD isNumD df0 dff (c :: cs) =
              filterLoop ch isCatD isNumD df0 dff cs := by
            show filterLoop ch isCatD isNumD df0 (stepFilter ch isCatD isNumD df0 dff c) cs = _
            rw [hid]
          rw [hfl]
          exact hcont
        · rw [hloop]
          exact hge

/-- Claim C8: filter_dataframe never mutates its input frame.  In the
store-passing model, the input object at index i is unchanged after the
call, the returned reference is a different object (`df.copy()` on line 66
and the boolean-indexing steps allocate fresh frames), and that object
holds exactly the purely computed filter result, so the original load can
be re-filtered. -/
theorem c8_no_mutation (ch : Choices) (isCatD isNumD : String → Bool)
    (σ : Store) (i : Nat) (cols : List String) (df : List Row)
    (h : σ[i]? = some df) :
    ((filter_dataframe_st ch isCatD isNumD σ i cols).1)[i]? = some df ∧
    ((filter_dataframe_st ch isCatD isNumD σ i cols).1)[
        (filter_dataframe_st ch isCatD isNumD σ i cols).2]? =
      some (filter_dataframe ch isCatD isNumD df cols) ∧
    (filter_dataframe_st ch isCatD isNumD σ i cols).2 ≠ i := by
  have hi : i < σ.length := (List.getElem?_eq_some.mp h).1
  have hunfold : filter_dataframe_st ch isCatD isNumD σ i cols =
      loopSt ch isCatD isNumD df (σ ++ [df, df]) (σ.length + 1) cols := by
    simp [filter_dataframe_st, h]
  have hsome : (σ ++ [df, df])[σ.length + 1]? = some df := by
    rw [List.getElem?_append_right (Nat.le_add_right σ.length 1)]
    simp
  obtain ⟨hpres, hcont, hge⟩ := loopSt_spec ch isCatD isNumD df cols (σ ++ [df, df])
    (σ.length + 1) df σ.length (by rw [List.length_append]; omega)
    (Nat.le_add_right σ.length 1) hsome
  refine ⟨?_, ?_, ?_⟩
  · rw [hunfold, hpres i hi, List.getElem?_append, if_pos hi]
    exact h
  · rw [hunfold]
    exact hcont
  · rw [hunfold]
    omega

/-- Claim C8 witness: with a one-frame store, filtering leaves the stored
input frame intact, returns a fresh reference, and that reference holds the
pure filter result. -/
theorem c8_no_mutation_witness :
    ((filter_dataframe_st chW noDtype noDtype [dfW] 0 ["a"]).1)[0]? = some dfW ∧
    ((filter_dataframe_st chW noDtype noDtype [dfW] 0 ["a"]).1)[
        (filter_dataframe_st chW noDtype noDtype [dfW] 0 ["a"]).2]? =
      some (filter_dataframe chW noDtype noDtype dfW ["a"]) ∧
    (filter_dataframe_st chW noDtype noDtype [dfW] 0 ["a"]).2 ≠ 0 :=
  c8_no_mutation chW noDtype noDtype [dfW] 0 ["a"] dfW (by decide)

end DTC
